import Mathlib

/-
  Verification of the connection lifecycle controller in
  src/src/use_webtransport.rs (leptos-use, use_webtransport).

  The controller is embedded as an explicit state machine.  The four
  reactive cells of the source (ready_state signal, transport_ref,
  reconnect_timer_ref, reconnect_count_ref) become record fields.  The
  asynchronous continuations the source spawns (awaiting a transport
  ready promise, awaiting a transport closed promise) become pending
  task sets keyed by a transport identity, completed later by
  environment events.  Callback invocations (on_open, on_close,
  on_error) are recorded as an event list.  Transport handles are
  identified by allocation order; live transports (constructed and not
  yet asked to close) are tracked so that handle ownership claims can
  be checked.
-/

set_option autoImplicit false

namespace UseWebTransport

/-- The crate-level ConnectionReadyState enum used by the controller. -/
inductive ConnectionReadyState where
  | Connecting
  | Open
  | Closing
  | Closed
deriving DecidableEq, Repr

/-- Callback invocations observable by the caller. -/
inductive Event where
  | OnOpen
  | OnClose
  | OnError
deriving DecidableEq, Repr

/-- Error enum for on_error in the source; it has no variants. -/
inductive WebTransportError : Type

/-- Controller state: the mutable cells of use_webtransport_with_options
plus the modelled asynchronous environment (pending spawned awaits, live
transport handles, emitted callback events). -/
structure CState where
  ready_state : ConnectionReadyState
  transport_ref : Option Nat
  reconnect_timer : Option Nat
  reconnect_count : Nat
  live : List Nat
  next_id : Nat
  pending_ready : List Nat
  pending_closed : List Nat
  events : List Event
deriving DecidableEq, Repr

/-- State right after the controller cells are created: ready_state
starts Closed, no transport stored, no timer, count 0. -/
def initState : CState :=
  ⟨ConnectionReadyState.Closed, none, none, 0, [], 0, [], [], []⟩

/-- Options struct of the source with its Default impl values. -/
structure UseWebTransportOptions where
  reconnect_limit : Nat := 3
  reconnect_interval : Nat := 3000
  immediate : Bool := true
deriving DecidableEq, Repr

/-- The connect routine stored in connect_ref (source lines 76-102):
reads transport_ref, clears the reconnect timer, requests close of the
stored transport if any, constructs a new WebTransport with
unwrap_throw (modelled by ctor_ok; a construction failure propagates as
an exception, i.e. none), sets ready_state to Connecting and spawns the
ready-await continuation for the new handle.  The source never writes
the new handle into transport_ref. -/
def connect (ctor_ok : Bool) (s : CState) : Option CState :=
  let s1 : CState := { s with reconnect_timer := none }
  let s2 : CState :=
    match s1.transport_ref with
    | some t => { s1 with live := s1.live.erase t }
    | none => s1
  if ctor_ok then
    some { s2 with
      ready_state := ConnectionReadyState.Connecting
      live := s2.live ++ [s2.next_id]
      pending_ready := s2.pending_ready ++ [s2.next_id]
      next_id := s2.next_id + 1 }
  else
    none

/-- Completion of a spawned ready-await (source lines 90-101): runs
whenever a transport with a spawned ready continuation settles, with no
guard against the transport having been superseded.  Success sets
ready_state to Open and invokes on_open; rejection sets ready_state to
Closed and invokes nothing (the source leaves a TODO and never calls
on_error). -/
def readyComplete (tid : Nat) (ok : Bool) (s : CState) : CState :=
  if tid ∈ s.pending_ready then
    let s1 : CState := { s with pending_ready := s.pending_ready.erase tid }
    if ok then
      { s1 with ready_state := ConnectionReadyState.Open
                events := s1.events ++ [Event.OnOpen] }
    else
      { s1 with ready_state := ConnectionReadyState.Closed }
  else s

/-- The open closure (source lines 104-111): sets reconnect_count to 0
and invokes the connect routine.  Named openConn because open is a Lean
keyword. -/
def openConn (ctor_ok : Bool) (s : CState) : Option CState :=
  connect ctor_ok { s with reconnect_count := 0 }

/-- The close closure (source lines 113-133): unconditionally sets
reconnect_count to reconnect_limit; if a transport is stored, requests
its close, sets ready_state to Closing and spawns the closed-await
continuation for it. -/
def close (reconnect_limit : Nat) (s : CState) : CState :=
  let s1 : CState := { s with reconnect_count := reconnect_limit }
  match s1.transport_ref with
  | some t =>
      { s1 with
        live := s1.live.erase t
        ready_state := ConnectionReadyState.Closing
        pending_closed := s1.pending_closed ++ [t] }
  | none => s1

/-- Completion of a closed-await spawned by close (source lines
119-131): sets ready_state to Closed in both branches, then invokes
on_close only when the closed promise resolved Ok; the Err branch is a
TODO that invokes nothing.  A transport whose closed promise settles
without a spawned listener (tid not pending) triggers nothing. -/
def closedComplete (tid : Nat) (ok : Bool) (s : CState) : CState :=
  if tid ∈ s.pending_closed then
    let s1 : CState := { s with pending_closed := s.pending_closed.erase tid
                                ready_state := ConnectionReadyState.Closed }
    if ok then { s1 with events := s1.events ++ [Event.OnClose] } else s1
  else s

/-- The reconnect closure (source lines 57-74): if reconnect_count is
below the limit and ready_state is Open, schedules a timer for
reconnect_interval milliseconds.  Nothing in the source ever invokes
this closure. -/
def reconnect (reconnect_limit reconnect_interval : Nat) (s : CState) : CState :=
  if s.reconnect_count < reconnect_limit ∧
      s.ready_state = ConnectionReadyState.Open then
    { s with reconnect_timer := some reconnect_interval }
  else s

/-- Firing of a scheduled reconnect timer (source lines 63-68): invokes
the connect routine, then increments reconnect_count.  If no timer is
pending nothing can fire. -/
def timerFire (ctor_ok : Bool) (s : CState) : Option CState :=
  match s.reconnect_timer with
  | some _ =>
      match connect ctor_ok s with
      | some s1 => some { s1 with reconnect_count := s1.reconnect_count + 1 }
      | none => none
  | none => some s

/-- Controller construction (source lines 35-46, 135-138): creates the
cells of initState and registers connect_ref.  The source destructures
the immediate flag from the options but contains no use of it: no
open() call is issued at construction for any option value.
reconnect_limit and reconnect_interval are captured by the closures and
appear as parameters of close, reconnect and step. -/
def use_webtransport_with_options (_options : UseWebTransportOptions) : CState :=
  initState

/-- use_webtransport (source lines 30-32): construction with default
options. -/
def use_webtransport : CState :=
  use_webtransport_with_options {}

/-- Commands: caller operations and environment completions that can
act on a controller. -/
inductive Cmd where
  | openCmd (ctor_ok : Bool)
  | closeCmd
  | readyCmd (tid : Nat) (ok : Bool)
  | closedCmd (tid : Nat) (ok : Bool)
  | fireCmd (ctor_ok : Bool)
deriving DecidableEq, Repr

/-- One controller step; none records an exception escaping to the
caller (the unwrap_throw in connect). -/
def step (reconnect_limit : Nat) : Cmd → CState → Option CState
  | Cmd.openCmd ok, s => openConn ok s
  | Cmd.closeCmd, s => some (close reconnect_limit s)
  | Cmd.readyCmd tid ok, s => some (readyComplete tid ok s)
  | Cmd.closedCmd tid ok, s => some (closedComplete tid ok s)
  | Cmd.fireCmd ok, s => timerFire ok s

/-- Run a command list from a given state. -/
def runFrom (reconnect_limit : Nat) : List Cmd → CState → Option CState
  | [], s => some s
  | c :: cs, s =>
      match step reconnect_limit c s with
      | some s1 => runFrom reconnect_limit cs s1
      | none => none

/-- Run a command list on a freshly constructed controller. -/
def runCmds (reconnect_limit : Nat) (cmds : List Cmd) : Option CState :=
  runFrom reconnect_limit cmds initState

/-- State after one successful open(): Connecting, transport 0 spawned. -/
def s_after_open : CState :=
  (runCmds 3 [Cmd.openCmd true]).getD initState

/-- State after open() and a successful ready-signal: Open, count 0. -/
def s_open : CState :=
  (runCmds 3 [Cmd.openCmd true, Cmd.readyCmd 0 true]).getD initState

/-- State after two open() calls in quick succession, neither
ready-signal settled yet. -/
def s_two_open : CState :=
  (runCmds 3 [Cmd.openCmd true, Cmd.openCmd true]).getD initState

/-- A hypothetical state holding a transport handle while Open, as
quantified over by the close() claims (the running code never actually
stores a handle, so such states are otherwise unreachable). -/
def s_held : CState :=
  ⟨ConnectionReadyState.Open, some 0, none, 0, [0], 1, [], [], []⟩

example : s_after_open =
    ⟨ConnectionReadyState.Connecting, none, none, 0, [0], 1, [0], [], []⟩ := by
  decide

example : s_open =
    ⟨ConnectionReadyState.Open, none, none, 0, [0], 1, [], [], [Event.OnOpen]⟩ := by
  decide

example : s_two_open =
    ⟨ConnectionReadyState.Connecting, none, none, 0, [0, 1], 2, [0, 1], [], []⟩ := by
  decide

/-- The connect routine never changes the emitted event list. -/
lemma connect_events {ok : Bool} {s s1 : CState} (h : connect ok s = some s1) :
    s1.events = s.events := by
  cases ok with
  | false => simp [connect] at h
  | true =>
    cases hT : s.transport_ref <;> simp [connect, hT] at h <;> subst h <;> rfl

/-- The close routine itself emits no event (on_close is emitted only by
the spawned closed-await completion). -/
lemma close_events (li : Nat) (s : CState) : (close li s).events = s.events := by
  cases hT : s.transport_ref <;> simp [close, hT]

/-- A ready-await completion never emits OnError. -/
lemma readyComplete_no_error {tid : Nat} {ok : Bool} {s : CState}
    (h : Event.OnError ∉ s.events) :
    Event.OnError ∉ (readyComplete tid ok s).events := by
  unfold readyComplete
  split
  · cases ok <;> simp [List.mem_append, h]
  · exact h

/-- A closed-await completion never emits OnError. -/
lemma closedComplete_no_error {tid : Nat} {ok : Bool} {s : CState}
    (h : Event.OnError ∉ s.events) :
    Event.OnError ∉ (closedComplete tid ok s).events := by
  unfold closedComplete
  split
  · cases ok <;> simp [List.mem_append, h]
  · exact h

/-- A timer firing never changes the emitted event list. -/
lemma timerFire_events {ok : Bool} {s s1 : CState} (h : timerFire ok s = some s1) :
    s1.events = s.events := by
  unfold timerFire at h
  cases hT : s.reconnect_timer with
  | none =>
      rw [hT] at h
      simp only [Option.some.injEq] at h
      subst h
      rfl
  | some d =>
      rw [hT] at h
      cases hC : connect ok s with
      | none => rw [hC] at h; cases h
      | some s2 =>
          rw [hC] at h
          simp only [Option.some.injEq] at h
          subst h
          simpa using connect_events hC

/-- No single step can emit OnError. -/
lemma step_no_error {li : Nat} {c : Cmd} {s s1 : CState}
    (h : step li c s = some s1) (hE : Event.OnError ∉ s.events) :
    Event.OnError ∉ s1.events := by
  cases c with
  | openCmd ok =>
      simp only [step, openConn] at h
      have h2 := connect_events h
      rw [h2]
      exact hE
  | closeCmd =>
      simp only [step, Option.some.injEq] at h
      subst h
      rw [close_events]
      exact hE
  | readyCmd tid ok =>
      simp only [step, Option.some.injEq] at h
      subst h
      exact readyComplete_no_error hE
  | closedCmd tid ok =>
      simp only [step, Option.some.injEq] at h
      subst h
      exact closedComplete_no_error hE
  | fireCmd ok =>
      simp only [step] at h
      rw [timerFire_events h]
      exact hE

/-- No run of the controller can emit OnError. -/
lemma runFrom_no_error (li : Nat) (cmds : List Cmd) :
    ∀ (s s1 : CState), runFrom li cmds s = some s1 →
      Event.OnError ∉ s.events → Event.OnError ∉ s1.events := by
  induction cmds with
  | nil =>
      intro s s1 h hE
      simp only [runFrom, Option.some.injEq] at h
      subst h
      exact hE
  | cons c cs ih =>
      intro s s1 h hE
      unfold runFrom at h
      cases hS : step li c s with
      | none => rw [hS] at h; cases h
      | some s2 =>
          rw [hS] at h
          exact ih s2 s1 h (step_no_error hS hE)

/-- Claim C1 (evidence of the code bug): at the failing input -- an
established Open connection with reconnect_count 0 below the limit 3 --
the unexpected resolution of the live transport closed-signal leaves the
controller state completely unchanged: no reconnect timer is scheduled,
reconnect_count stays 0 and the connect routine is never re-issued,
because the source registers no closed-await outside close() and never
invokes its reconnect closure.  The dead reconnect closure would have
scheduled the timer for reconnect_interval had it been invoked here. -/
theorem unexpected_close_schedules_nothing :
    s_open.ready_state = ConnectionReadyState.Open ∧
    s_open.reconnect_count < 3 ∧
    closedComplete 0 true s_open = s_open ∧
    (closedComplete 0 true s_open).reconnect_timer = none ∧
    (reconnect 3 3000 s_open).reconnect_timer = some 3000 := by
  decide

/-- Counterexample to claim C2 as stated: at a concrete Connecting state
whose ready-signal rejects, the controller sets ready_state to Closed
but the on_error callback is not invoked (no event at all is emitted). -/
theorem ready_reject_no_on_error_cex :
    s_after_open.ready_state = ConnectionReadyState.Connecting ∧
    (readyComplete 0 false s_after_open).ready_state = ConnectionReadyState.Closed ∧
    (readyComplete 0 false s_after_open).events = [] ∧
    Event.OnError ∉ (readyComplete 0 false s_after_open).events := by
  decide

/-- Claim C2 amended: whenever a spawned ready-await rejects, the
controller sets ready_state to Closed and schedules no reconnect timer,
but it does not invoke on_error (or any callback): the event list is
unchanged. -/
theorem ready_reject_closes_silently (s : CState) (tid : Nat)
    (h : tid ∈ s.pending_ready) :
    (readyComplete tid false s).ready_state = ConnectionReadyState.Closed ∧
    (readyComplete tid false s).events = s.events ∧
    (readyComplete tid false s).reconnect_timer = s.reconnect_timer := by
  simp [readyComplete, h]

/-- Witness for the amended claim C2 at a concrete reachable state. -/
theorem ready_reject_closes_silently_witness :
    0 ∈ s_after_open.pending_ready ∧
    (readyComplete 0 false s_after_open).ready_state = ConnectionReadyState.Closed ∧
    (readyComplete 0 false s_after_open).events = s_after_open.events ∧
    (readyComplete 0 false s_after_open).reconnect_timer = s_after_open.reconnect_timer :=
  ⟨by decide, ready_reject_closes_silently s_after_open 0 (by decide)⟩

/-- Counterexample to claim C3 as stated: close() on a state holding
transport 0 while Open, followed by a rejecting closed-signal, reaches
ready_state Closed but never invokes on_close (no event is emitted),
contradicting invocation whether the signal resolves or rejects. -/
theorem close_reject_no_on_close_cex :
    s_held.transport_ref = some 0 ∧
    s_held.ready_state = ConnectionReadyState.Open ∧
    (close 3 s_held).reconnect_count = 3 ∧
    (close 3 s_held).ready_state = ConnectionReadyState.Closing ∧
    (closedComplete 0 false (close 3 s_held)).ready_state = ConnectionReadyState.Closed ∧
    (closedComplete 0 false (close 3 s_held)).events = [] := by
  decide

/-- Claim C3 amended: from any state holding a transport handle while
Open, close() sets reconnect_count to reconnect_limit, moves to Closing,
requests the transport close and spawns the closed-await; its completion
sets ready_state to Closed whether the closed-signal resolves or
rejects, but on_close is invoked (exactly once) only when it resolves;
on rejection no callback fires. -/
theorem close_with_transport_behavior (s : CState) (t li : Nat) (ok : Bool)
    (h1 : s.transport_ref = some t)
    (h2 : s.ready_state = ConnectionReadyState.Open) :
    (close li s).reconnect_count = li ∧
    (close li s).ready_state = ConnectionReadyState.Closing ∧
    (close li s).live = s.live.erase t ∧
    (close li s).pending_closed = s.pending_closed ++ [t] ∧
    (closedComplete t ok (close li s)).ready_state = ConnectionReadyState.Closed ∧
    (closedComplete t ok (close li s)).events =
      s.events ++ if ok then [Event.OnClose] else [] := by
  refine ⟨?_, ?_, ?_, ?_, ?_, ?_⟩ <;>
    cases ok <;> simp [close, closedComplete, h1, List.mem_append]

/-- Witness for the amended claim C3 at a concrete held state. -/
theorem close_with_transport_behavior_witness :
    s_held.transport_ref = some 0 ∧
    s_held.ready_state = ConnectionReadyState.Open ∧
    ((close 3 s_held).reconnect_count = 3 ∧
     (close 3 s_held).ready_state = ConnectionReadyState.Closing ∧
     (close 3 s_held).live = s_held.live.erase 0 ∧
     (close 3 s_held).pending_closed = s_held.pending_closed ++ [0] ∧
     (closedComplete 0 true (close 3 s_held)).ready_state = ConnectionReadyState.Closed ∧
     (closedComplete 0 true (close 3 s_held)).events =
       s_held.events ++ if true then [Event.OnClose] else []) :=
  ⟨by decide, by decide,
    close_with_transport_behavior s_held 0 3 true (by decide) (by decide)⟩

/-- Claim C4 (evidence of the code bug): after two open() calls the
controller has never stored any handle (transport_ref is still none),
so the second connect closed nothing and both constructed transports
remain live simultaneously. -/
theorem connect_never_stores_handle :
    s_two_open.transport_ref = none ∧
    s_two_open.live = [0, 1] ∧
    s_two_open.pending_ready = [0, 1] := by
  decide

/-- Claim C5 (evidence of the code bug): construction with immediate =
true issues no connect: ready_state stays Closed, no transport is
created, no ready-await is spawned, and the result is identical to
construction with immediate = false. -/
theorem construction_ignores_immediate :
    (use_webtransport_with_options ⟨3, 3000, true⟩).ready_state =
      ConnectionReadyState.Closed ∧
    (use_webtransport_with_options ⟨3, 3000, true⟩).live = [] ∧
    (use_webtransport_with_options ⟨3, 3000, true⟩).pending_ready = [] ∧
    use_webtransport_with_options ⟨3, 3000, true⟩ =
      use_webtransport_with_options ⟨3, 3000, false⟩ := by
  decide

/-- Counterexample to claim C6 as stated: with two open() calls issued
before the first ready-signal settles, the completion of the superseded
first transport (id 0; the most recent is id 1, still pending) mutates
ready_state to Open and emits on_open. -/
theorem superseded_ready_mutates_cex :
    s_two_open.pending_ready = [0, 1] ∧
    s_two_open.ready_state = ConnectionReadyState.Connecting ∧
    (readyComplete 0 true s_two_open).ready_state = ConnectionReadyState.Open ∧
    (readyComplete 0 true s_two_open).events = [Event.OnOpen] := by
  decide

/-- Claim C6 amended: the controller applies every spawned ready-await
completion unconditionally -- there is no generation or identity guard --
so the completion of any transport with a pending ready-await, including
a superseded one, mutates ready_state. -/
theorem any_pending_ready_completion_mutates (s : CState) (tid : Nat) (ok : Bool)
    (h : tid ∈ s.pending_ready) :
    (readyComplete tid ok s).ready_state =
      if ok then ConnectionReadyState.Open else ConnectionReadyState.Closed := by
  cases ok <;> simp [readyComplete, h]

/-- Witness for the amended claim C6: the superseded transport 0
completing successfully sets ready_state to Open. -/
theorem any_pending_ready_completion_mutates_witness :
    0 ∈ s_two_open.pending_ready ∧
    (readyComplete 0 true s_two_open).ready_state =
      if true then ConnectionReadyState.Open else ConnectionReadyState.Closed :=
  ⟨by decide, any_pending_ready_completion_mutates s_two_open 0 true (by decide)⟩

/-- Counterexample to claim C7 as stated: when WebTransport construction
fails (for example an invalid url), open() propagates the unwrap_throw
exception to its caller instead of returning normally. -/
theorem open_can_raise_cex : openConn false initState = none := by
  decide

/-- Claim C7 amended: open() returns normally exactly when WebTransport
construction succeeds; when construction fails the unwrap_throw in the
connect routine raises to the caller.  close() is a total function in
this embedding since its body contains no throwing operation. -/
theorem open_raises_iff_ctor_fails (ok : Bool) (s : CState) :
    (openConn ok s).isSome = ok := by
  cases hT : s.transport_ref <;> cases ok <;> simp [openConn, connect, hT]

/-- Claim C8: open() resets reconnect_count to 0 regardless of its prior
value; the connect routine it issues leaves the count at 0. -/
theorem open_resets_reconnect_count (s : CState) :
    Option.map (fun st => st.reconnect_count) (openConn true s) = some 0 := by
  cases hT : s.transport_ref <;> simp [openConn, connect, hT]

/-- Claim C9: close() with no stored transport only sets
reconnect_count to the limit: ready_state is untouched, no callback
fires, no timer or closed-await is created. -/
theorem close_without_transport (li : Nat) (s : CState)
    (h : s.transport_ref = none) :
    close li s = { s with reconnect_count := li } := by
  simp [close, h]

/-- Witness for claim C9 on the freshly constructed controller. -/
theorem close_without_transport_witness :
    initState.transport_ref = none ∧
    close 7 initState = { initState with reconnect_count := 7 } :=
  ⟨rfl, close_without_transport 7 initState rfl⟩

/-- Claim C10: on every execution of the controller, whatever commands
the caller and the environment issue, the on_error callback is never
invoked; moreover WebTransportError is uninhabited, so no argument for
on_error can even be constructed. -/
theorem on_error_never_invoked :
    (∀ (li : Nat) (cmds : List Cmd) (s : CState),
        runCmds li cmds = some s → Event.OnError ∉ s.events) ∧
    (WebTransportError → False) := by
  constructor
  · intro li cmds s h
    exact runFrom_no_error li cmds initState s h (by simp [initState])
  · intro e
    cases e

/-- Witness for claim C10 on a run that opens and completes a
connection. -/
theorem on_error_never_invoked_witness :
    Event.OnError ∉ s_open.events :=
  on_error_never_invoked.1 3 [Cmd.openCmd true, Cmd.readyCmd 0 true] s_open
    (by decide)

end UseWebTransport
